import Mathlib

/-!
# Verification of the moon-dev-ai-agents Polymarket trading modules

Shallow embedding of the paper-trading engine
(`src/paper_trading_polymarket.py`, class `PaperTradingEngine`) and of the
whale-tracker agent (`src/agents/whale_tracker_polymarket.py`, class
`WhaleTrackerAgent`) together with the paper-mode order routing of
`src/nice_funcs_polymarket.py` (`place_market_order`).

Modelling conventions:
* Python floats holding money/prices/sizes are modelled as `ℚ`; all the
  concrete inputs used below are exactly representable and the control flow
  only compares such exact values.
* The pandas DataFrames (`trades_df`, `positions_df`, `balance_history`,
  `whale_wallets_df`) are modelled as Lean lists of records, in row order;
  `pd.concat([df, pd.DataFrame([row])])` is `l ++ [row]`, a boolean mask is a
  list predicate, `df[mask].iloc[0]` is the head of `l.filter`.
* Timestamps and the datetime-derived trade id are never consulted by the
  engine's arithmetic; the trade id is supplied by the caller as an opaque
  string, wall-clock timestamps are modelled as a `Nat` argument (`now`)
  where a claim mentions them and omitted otherwise.  The CSV `_save_*`
  calls are I/O no-ops for the state and are dropped.
* `order_type` and `notes` are stored but never read; they are omitted from
  the records.
-/

namespace PaperTrading

/-- One row of `trades_df` (columns of `_load_trades`, without the
metadata columns `timestamp`, `trade_id`, `order_type`, `notes`, which the
engine never reads). -/
structure TradeRecord where
  market_slug : String
  market_title : String
  token_id : String
  side : String
  price : ℚ
  size : ℚ
  usd_value : ℚ
  status : String
  pnl : ℚ
deriving Repr, DecidableEq

/-- One row of `positions_df` (columns of `_load_positions`, without
`opened_at`). -/
structure Position where
  market_slug : String
  market_title : String
  token_id : String
  side : String
  entry_price : ℚ
  current_price : ℚ
  shares : ℚ
  entry_value : ℚ
  current_value : ℚ
  unrealized_pnl : ℚ
deriving Repr, DecidableEq

/-- The mutable state of a `PaperTradingEngine` instance: `starting_balance`,
`balance`, `trades_df`, `positions_df` and `balance_history` (each history
row keeps the `balance` and `total_pnl` columns). -/
structure EngineState where
  starting_balance : ℚ
  balance : ℚ
  trades : List TradeRecord
  positions : List Position
  balance_history : List (ℚ × ℚ)
deriving Repr, DecidableEq

/-- `PaperTradingEngine.__init__` on a fresh data folder: empty DataFrames,
`balance = starting_balance`; the initial `_recalculate_balance()` call hits
the `trades_df.empty` early return and appends no snapshot. -/
def initEngine (starting_balance : ℚ) : EngineState :=
  { starting_balance := starting_balance
    balance := starting_balance
    trades := []
    positions := []
    balance_history := [] }

/-- `closed_trades['pnl'].sum()` over `trades_df[trades_df['status'] == 'CLOSED']`
(the `if not closed_trades.empty else 0` guard is the empty sum). -/
def realizedPnl (trades : List TradeRecord) : ℚ :=
  ((trades.filter fun t => t.status == "CLOSED").map fun t => t.pnl).sum

/-- `positions_df['unrealized_pnl'].sum()` with the same empty guard. -/
def unrealizedPnl (positions : List Position) : ℚ :=
  (positions.map fun p => p.unrealized_pnl).sum

/-- `PaperTradingEngine._recalculate_balance`: early return with
`balance = starting_balance` when `trades_df` is empty; otherwise set
`balance = starting_balance + realized_pnl` and append a
`(balance, total_pnl)` snapshot to the balance history. -/
def _recalculate_balance (s : EngineState) : EngineState :=
  if s.trades = [] then { s with balance := s.starting_balance }
  else
    let realized_pnl := realizedPnl s.trades
    let unrealized_pnl := unrealizedPnl s.positions
    let balance := s.starting_balance + realized_pnl
    let total_pnl := realized_pnl + unrealized_pnl
    { s with balance := balance
             balance_history := s.balance_history ++ [(balance, total_pnl)] }

/-- The `position` dict built by `_add_position`: `current_price =
entry_price`, `current_value = entry_value`, `unrealized_pnl = 0`. -/
def entryPosition (market_slug market_title token_id side : String)
    (entry_price shares entry_value : ℚ) : Position :=
  { market_slug := market_slug
    market_title := market_title
    token_id := token_id
    side := side
    entry_price := entry_price
    current_price := entry_price
    shares := shares
    entry_value := entry_value
    current_value := entry_value
    unrealized_pnl := 0 }

/-- `PaperTradingEngine._add_position`: unconditionally appends a fresh
position row. -/
def _add_position (s : EngineState)
    (market_slug market_title token_id side : String)
    (entry_price shares entry_value : ℚ) : EngineState :=
  { s with positions := s.positions ++
      [entryPosition market_slug market_title token_id side
        entry_price shares entry_value] }

/-- The position mask of `_close_position`:
`(positions_df['market_slug'] == market_slug) & (positions_df['token_id'] == token_id)`. -/
def posMatches (market_slug token_id : String) (p : Position) : Bool :=
  p.market_slug == market_slug && p.token_id == token_id

/-- The `buy_trade_mask` of `_close_position`: slug, token, `side == 'BUY'`
and `status == 'OPEN'`. -/
def openBuyMatches (market_slug token_id : String) (t : TradeRecord) : Bool :=
  t.market_slug == market_slug && t.token_id == token_id &&
    t.side == "BUY" && t.status == "OPEN"

/-- `PaperTradingEngine._close_position`: take the first position matching
the (slug, token) mask; if none, do nothing.  Otherwise `pnl = exit_price *
shares - entry_value`, add `exit_value` to the balance, set every OPEN BUY
trade of the pair to CLOSED with that `pnl` (writing through the pandas mask
touches every matching row; the `if not ... empty` guard around it only
gates the CSV save and is a no-op on the rows when the mask is empty), and
drop every position matching the mask (`positions_df[~mask]`). -/
def _close_position (s : EngineState) (market_slug token_id : String)
    (exit_price shares : ℚ) : EngineState :=
  match s.positions.filter (posMatches market_slug token_id) with
  | [] => s
  | position :: _ =>
    let entry_value := position.entry_value
    let exit_value := exit_price * shares
    let pnl := exit_value - entry_value
    let trades := s.trades.map fun t =>
      if openBuyMatches market_slug token_id t
      then { t with status := "CLOSED", pnl := pnl } else t
    let positions := s.positions.filter fun p =>
      !(posMatches market_slug token_id p)
    { s with balance := s.balance + exit_value
             trades := trades
             positions := positions }

/-- The `trade` dict recorded by `place_order`: always `status = 'OPEN'`,
`pnl = 0`, `usd_value = price * size`. -/
def openTrade (market_slug market_title token_id side : String)
    (price size : ℚ) : TradeRecord :=
  { market_slug := market_slug
    market_title := market_title
    token_id := token_id
    side := side
    price := price
    size := size
    usd_value := price * size
    status := "OPEN"
    pnl := 0 }

/-- `PaperTradingEngine.place_order`.  Returns the trade id (caller-supplied
here, datetime-derived in the source) on success and `none` on the
insufficient-balance early return.  Steps, in source order: compute
`usd_value = price * size`; fail if `side == "BUY"` and `usd_value >
balance`; append the OPEN trade row with `pnl = 0`; debit the balance if
BUY; `_add_position` if BUY else `_close_position`; `_recalculate_balance`. -/
def place_order (s : EngineState)
    (market_slug market_title token_id side : String)
    (price size : ℚ) (trade_id : String) : Option String × EngineState :=
  let usd_value := price * size
  if side = "BUY" ∧ s.balance < usd_value then (none, s)
  else
    let trade : TradeRecord :=
      openTrade market_slug market_title token_id side price size
    let s1 : EngineState := { s with trades := s.trades ++ [trade] }
    let s2 : EngineState :=
      if side = "BUY" then { s1 with balance := s1.balance - usd_value } else s1
    let s3 : EngineState :=
      if side = "BUY"
      then _add_position s2 market_slug market_title token_id side price size usd_value
      else _close_position s2 market_slug token_id price size
    (some trade_id, _recalculate_balance s3)

/-- An order request, used to fold sequences of `place_order` calls. -/
structure OrderReq where
  market_slug : String
  market_title : String
  token_id : String
  side : String
  price : ℚ
  size : ℚ
  trade_id : String
deriving Repr, DecidableEq

/-- Run a sequence of `place_order` calls, keeping the final state. -/
def runOrders (s : EngineState) (os : List OrderReq) : EngineState :=
  os.foldl (fun st o =>
    (place_order st o.market_slug o.market_title o.token_id o.side
      o.price o.size o.trade_id).2) s

/-- The `total_pnl` value that `_recalculate_balance` would snapshot for a
state: realized plus unrealized P&L. -/
def total_pnl (s : EngineState) : ℚ :=
  realizedPnl s.trades + unrealizedPnl s.positions

/-- Balance consistency: the balance field equals
`starting_balance + realizedPnl trades`.  This holds for a fresh engine
(`realizedPnl [] = 0`) and is re-established by the `_recalculate_balance`
call at the end of every completed `place_order`, so it holds in every state
at rest between calls. -/
def balOk (s : EngineState) : Prop :=
  s.balance = s.starting_balance + realizedPnl s.trades

end PaperTrading

namespace WhaleTracker

/-- `MIN_WHALE_TRADE_SIZE = 10000` — the default whale threshold
(`src/agents/whale_tracker_polymarket.py`, line 53). -/
def MIN_WHALE_TRADE_SIZE : ℚ := 10000

/-- The whale classification performed by `on_ws_message` on an
`orders_matched` payload: `usd_value = price * size`, and
`process_whale_trade` is invoked iff `usd_value >= MIN_WHALE_TRADE_SIZE`. -/
def is_whale_trade (price size : ℚ) : Bool :=
  decide (price * size ≥ MIN_WHALE_TRADE_SIZE)

/-- One row of `whale_wallets_df` (columns of `_load_whale_wallets`);
timestamps `first_seen`/`last_seen` are modelled as `Nat`. -/
structure WhaleWallet where
  wallet_address : String
  win_rate : ℚ
  total_volume : ℚ
  profit_loss : ℚ
  first_seen : Nat
  last_seen : Nat
  trade_count : Nat
deriving Repr, DecidableEq

/-- The `stats` dict returned by `get_trader_stats`.  `none` models the
empty dict (falsy in `if stats:`); `some` carries the three consulted
fields, each already defaulted by `stats.get(key, 0)`. -/
structure TraderStats where
  win_rate : ℚ
  total_volume : ℚ
  profit_loss : ℚ
deriving Repr, DecidableEq

/-- `WhaleTrackerAgent._update_whale_wallet` (the `record_sighting`
contract).  If the wallet is already in `whale_wallets_df`, set `last_seen`
to now and increment `trade_count` on every matching row, and overwrite
`win_rate`/`total_volume`/`profit_loss` from `stats` only when `stats` is
non-empty.  Otherwise append a fresh row with `trade_count = 1`,
`first_seen = last_seen = now`, and the stats fields defaulted to 0 when
`stats` is empty. -/
def _update_whale_wallet (df : List WhaleWallet) (wallet : String)
    (stats : Option TraderStats) (now : Nat) : List WhaleWallet :=
  if df.any fun w => w.wallet_address == wallet then
    df.map fun w =>
      if w.wallet_address == wallet then
        let w' := { w with last_seen := now, trade_count := w.trade_count + 1 }
        match stats with
        | some st => { w' with win_rate := st.win_rate
                               total_volume := st.total_volume
                               profit_loss := st.profit_loss }
        | none => w'
      else w
  else
    df ++ [{ wallet_address := wallet
             win_rate := (stats.map fun st => st.win_rate).getD 0
             total_volume := (stats.map fun st => st.total_volume).getD 0
             profit_loss := (stats.map fun st => st.profit_loss).getD 0
             first_seen := now
             last_seen := now
             trade_count := 1 }]

/-- `COPY_PERCENTAGE = 10` (whale tracker configuration, line 60). -/
def COPY_PERCENTAGE : ℚ := 10

/-- `MAX_POSITION_SIZE = 100` (whale tracker configuration, line 59). -/
def MAX_POSITION_SIZE : ℚ := 100

/-- The position-size computation of `_evaluate_copy_trade`:
`copy_size_usd = min(whale_size_usd * (COPY_PERCENTAGE / 100), MAX_POSITION_SIZE)`. -/
def copy_size_usd (whale_size_usd : ℚ) : ℚ :=
  min (whale_size_usd * (COPY_PERCENTAGE / 100)) MAX_POSITION_SIZE

/-- The `simulated_price = 0.50` used by the paper-trading branch of
`place_market_order` in `src/nice_funcs_polymarket.py`. -/
def simulated_price : ℚ := 1 / 2

/-- The paper-trading branch of `place_market_order`
(`src/nice_funcs_polymarket.py`): it forwards its `size` argument UNCHANGED
as the share count to `paper_engine.place_order` at `price =
simulated_price` — no USD-to-shares conversion takes place, even though the
call site in `_evaluate_copy_trade` passes `size=copy_size_usd` with the
comment "This will be converted to shares in the function". -/
def place_market_order (s : PaperTrading.EngineState) (token_id : String)
    (size : ℚ) (side market_slug market_title trade_id : String) :
    Option String × PaperTrading.EngineState :=
  PaperTrading.place_order s market_slug market_title token_id side
    simulated_price size trade_id

end WhaleTracker

/-! ## Helper lemmas about the engine operations -/

namespace PaperTrading

theorem realizedPnl_nil : realizedPnl [] = 0 := rfl

theorem realizedPnl_append (l₁ l₂ : List TradeRecord) :
    realizedPnl (l₁ ++ l₂) = realizedPnl l₁ + realizedPnl l₂ := by
  simp [realizedPnl, List.filter_append]

theorem realizedPnl_openTrade (slug title tok side : String) (price size : ℚ) :
    realizedPnl [openTrade slug title tok side price size] = 0 := by
  simp [realizedPnl, openTrade, List.filter]

theorem _recalculate_balance_balance (s : EngineState) :
    (_recalculate_balance s).balance = s.starting_balance + realizedPnl s.trades := by
  unfold _recalculate_balance
  split
  · rename_i h
    rw [h, realizedPnl_nil, add_zero]
  · rfl

theorem _recalculate_balance_trades (s : EngineState) :
    (_recalculate_balance s).trades = s.trades := by
  unfold _recalculate_balance
  split <;> rfl

theorem _recalculate_balance_positions (s : EngineState) :
    (_recalculate_balance s).positions = s.positions := by
  unfold _recalculate_balance
  split <;> rfl

theorem _recalculate_balance_starting (s : EngineState) :
    (_recalculate_balance s).starting_balance = s.starting_balance := by
  unfold _recalculate_balance
  split <;> rfl

theorem _recalculate_balance_history_of_ne (s : EngineState) (h : s.trades ≠ []) :
    (_recalculate_balance s).balance_history =
      s.balance_history ++
        [(s.starting_balance + realizedPnl s.trades, total_pnl s)] := by
  unfold _recalculate_balance
  rw [if_neg h]
  rfl

theorem _recalculate_balance_of_nil (s : EngineState) (h : s.trades = []) :
    _recalculate_balance s = { s with balance := s.starting_balance } := by
  unfold _recalculate_balance
  rw [if_pos h]

theorem balOk_recalculate (s : EngineState) : balOk (_recalculate_balance s) := by
  rw [balOk, _recalculate_balance_balance, _recalculate_balance_starting,
    _recalculate_balance_trades]

theorem place_order_fail_eq (s : EngineState) (slug title tok : String)
    (price size : ℚ) (tid : String) (h : s.balance < price * size) :
    place_order s slug title tok "BUY" price size tid = (none, s) := by
  unfold place_order
  rw [if_pos ⟨rfl, h⟩]

theorem place_order_buy_eq (s : EngineState) (slug title tok : String)
    (price size : ℚ) (tid : String) (h : ¬ s.balance < price * size) :
    place_order s slug title tok "BUY" price size tid =
      (some tid,
        _recalculate_balance
          { starting_balance := s.starting_balance
            balance := s.balance - price * size
            trades := s.trades ++ [openTrade slug title tok "BUY" price size]
            positions := s.positions ++
              [entryPosition slug title tok "BUY" price size (price * size)]
            balance_history := s.balance_history }) := by
  simp only [place_order, _add_position]
  rw [if_neg (by rintro ⟨-, hlt⟩; exact h hlt)]
  simp

theorem place_order_sell_eq (s : EngineState) (slug title tok side : String)
    (price size : ℚ) (tid : String) (hside : side ≠ "BUY") :
    place_order s slug title tok side price size tid =
      (some tid,
        _recalculate_balance
          (_close_position
            { s with trades :=
                s.trades ++ [openTrade slug title tok side price size] }
            slug tok price size)) := by
  simp only [place_order]
  rw [if_neg (by rintro ⟨hs, -⟩; exact hside hs), if_neg hside, if_neg hside]

theorem filter_posMatches_eq_nil {slug tok : String} {l : List Position}
    (h : ∀ p ∈ l, posMatches slug tok p = false) :
    l.filter (posMatches slug tok) = [] := by
  induction l with
  | nil => rfl
  | cons a l ih =>
    rw [List.filter_cons,
      if_neg (by rw [h a (List.mem_cons_self a l)]; exact Bool.false_ne_true)]
    exact ih fun p hp => h p (List.mem_cons_of_mem a hp)

theorem _close_position_no_match (s : EngineState) (slug tok : String)
    (price size : ℚ) (h : ∀ p ∈ s.positions, posMatches slug tok p = false) :
    _close_position s slug tok price size = s := by
  unfold _close_position
  rw [filter_posMatches_eq_nil h]

theorem _close_position_starting (s : EngineState) (slug tok : String)
    (price size : ℚ) :
    (_close_position s slug tok price size).starting_balance =
      s.starting_balance := by
  unfold _close_position
  cases s.positions.filter (posMatches slug tok) <;> rfl

theorem _close_position_trades_ne_nil (s : EngineState) (slug tok : String)
    (price size : ℚ) (h : s.trades ≠ []) :
    (_close_position s slug tok price size).trades ≠ [] := by
  unfold _close_position
  cases s.positions.filter (posMatches slug tok) with
  | nil => exact h
  | cons a l => simpa [List.map_eq_nil_iff] using h

theorem map_close_eq_self (slug tok : String) (pnl : ℚ) (l : List TradeRecord)
    (h : ∀ t ∈ l, openBuyMatches slug tok t = false) :
    (l.map fun t => if openBuyMatches slug tok t
        then { t with status := "CLOSED", pnl := pnl } else t) = l := by
  induction l with
  | nil => rfl
  | cons a l ih =>
    rw [List.map_cons,
      if_neg (by rw [h a (List.mem_cons_self a l)]; exact Bool.false_ne_true),
      ih fun t ht => h t (List.mem_cons_of_mem a ht)]

theorem openBuyMatches_openTrade (slug title tok : String) (price size : ℚ) :
    openBuyMatches slug tok (openTrade slug title tok "BUY" price size) = true := by
  simp [openBuyMatches, openTrade]

theorem openBuyMatches_of_side_ne (slug tok : String) (t : TradeRecord)
    (h : t.side ≠ "BUY") : openBuyMatches slug tok t = false := by
  refine Bool.eq_false_iff.mpr fun hc => h ?_
  simp only [openBuyMatches, Bool.and_eq_true, beq_iff_eq] at hc
  exact hc.1.2

theorem posMatches_entryPosition (slug title tok side : String)
    (ep sh ev : ℚ) :
    posMatches slug tok (entryPosition slug title tok side ep sh ev) = true := by
  simp [posMatches, entryPosition]

end PaperTrading

/-! ## Claim theorems -/

namespace PaperTrading

/-- C5: `_recalculate_balance` is idempotent on the account values: calling
it twice with no intervening `place_order` yields the same balance and the
same `total_pnl`; with a non-empty trade history each call appends a
snapshot row, and the two rows carry identical values, while with an empty
trade history the second call changes nothing at all. -/
theorem recalculate_balance_idempotent (s : EngineState) :
    (_recalculate_balance (_recalculate_balance s)).balance =
        (_recalculate_balance s).balance ∧
    total_pnl (_recalculate_balance (_recalculate_balance s)) =
        total_pnl (_recalculate_balance s) ∧
    (s.trades = [] →
      _recalculate_balance (_recalculate_balance s) = _recalculate_balance s) ∧
    (s.trades ≠ [] →
      (_recalculate_balance (_recalculate_balance s)).balance_history =
        s.balance_history ++
          [((_recalculate_balance s).balance, total_pnl s),
           ((_recalculate_balance s).balance, total_pnl s)]) := by
  have hT := _recalculate_balance_trades s
  have hP := _recalculate_balance_positions s
  have hS := _recalculate_balance_starting s
  have hTP : total_pnl (_recalculate_balance s) = total_pnl s := by
    unfold total_pnl
    rw [hT, hP]
  refine ⟨?_, ?_, ?_, ?_⟩
  · rw [_recalculate_balance_balance (_recalculate_balance s), hS, hT,
      _recalculate_balance_balance s]
  · unfold total_pnl
    rw [_recalculate_balance_trades, _recalculate_balance_positions, hT, hP]
  · intro h
    rw [_recalculate_balance_of_nil s h,
      _recalculate_balance_of_nil { s with balance := s.starting_balance } h]
  · intro h
    have h2 : (_recalculate_balance s).trades ≠ [] := by
      rw [hT]; exact h
    rw [_recalculate_balance_history_of_ne _ h2,
      _recalculate_balance_history_of_ne s h, hS, hT, hTP,
      _recalculate_balance_balance s, List.append_assoc]
    rfl

/-- C5 witness at a concrete state with one closed trade. -/
theorem recalculate_balance_idempotent_witness :
    (_recalculate_balance (_recalculate_balance
        { starting_balance := 10000, balance := 0,
          trades := [{ market_slug := "m", market_title := "M",
                       token_id := "t", side := "BUY", price := 1/2,
                       size := 100, usd_value := 50, status := "CLOSED",
                       pnl := 25 }],
          positions := [], balance_history := [] })).balance =
      (_recalculate_balance
        { starting_balance := 10000, balance := 0,
          trades := [{ market_slug := "m", market_title := "M",
                       token_id := "t", side := "BUY", price := 1/2,
                       size := 100, usd_value := 50, status := "CLOSED",
                       pnl := 25 }],
          positions := [], balance_history := [] }).balance ∧
    (_recalculate_balance (_recalculate_balance
        { starting_balance := 10000, balance := 0,
          trades := [{ market_slug := "m", market_title := "M",
                       token_id := "t", side := "BUY", price := 1/2,
                       size := 100, usd_value := 50, status := "CLOSED",
                       pnl := 25 }],
          positions := [], balance_history := [] })).balance_history =
      ([] : List (ℚ × ℚ)) ++ [(10025, 25), (10025, 25)] := by
  have h := recalculate_balance_idempotent
    { starting_balance := 10000, balance := 0,
      trades := [{ market_slug := "m", market_title := "M",
                   token_id := "t", side := "BUY", price := 1/2,
                   size := 100, usd_value := 50, status := "CLOSED",
                   pnl := 25 }],
      positions := [], balance_history := [] }
  refine ⟨h.1, ?_⟩
  rw [h.2.2.2 (by simp)]
  norm_num [_recalculate_balance, total_pnl, realizedPnl, unrealizedPnl,
    List.filter_cons, List.filter_nil]

/-- C10: after every completed (non-`none`) `place_order` call, the balance
equals `starting_balance` plus the summed pnl of CLOSED trades — the final
`_recalculate_balance` overwrites the mid-call debit, so the cost of
still-open BUY positions is never reflected in the reported balance. -/
theorem place_order_balance_from_closed_pnl (s : EngineState)
    (slug title tok side : String) (price size : ℚ) (tid : String)
    (h : (place_order s slug title tok side price size tid).1.isSome) :
    (place_order s slug title tok side price size tid).2.balance =
      s.starting_balance +
        realizedPnl (place_order s slug title tok side price size tid).2.trades := by
  by_cases hside : side = "BUY"
  · subst hside
    by_cases hlt : s.balance < price * size
    · rw [place_order_fail_eq s slug title tok price size tid hlt] at h
      simp at h
    · rw [place_order_buy_eq s slug title tok price size tid hlt]
      simp only [_recalculate_balance_balance, _recalculate_balance_trades]
  · rw [place_order_sell_eq s slug title tok side price size tid hside]
    simp only [_recalculate_balance_balance, _recalculate_balance_trades,
      _close_position_starting]

/-- C10 witness: a concrete successful BUY on a fresh engine. -/
theorem place_order_balance_from_closed_pnl_witness :
    (place_order (initEngine 10000) "m" "M" "t" "BUY" (1/2) 100 "T1").2.balance =
      (initEngine 10000).starting_balance +
        realizedPnl
          (place_order (initEngine 10000) "m" "M" "t" "BUY"
            (1/2) 100 "T1").2.trades :=
  place_order_balance_from_closed_pnl (initEngine 10000) "m" "M" "t" "BUY"
    (1/2) 100 "T1" (by
      norm_num +decide [place_order, initEngine, _recalculate_balance,
        _add_position, _close_position, openTrade, entryPosition, realizedPnl,
        unrealizedPnl, posMatches, openBuyMatches, List.filter_cons,
        List.filter_nil])

end PaperTrading

namespace WhaleTracker

/-- C8: the whale classifier of `on_ws_message` computes
`usd_value = price * size` and flags the event iff `usd_value` reaches
`MIN_WHALE_TRADE_SIZE` (default 10000); in particular price 0.02 with size
600000 (12000 USD) is flagged and price 0.02 with size 100000
(2000 USD) is not. -/
theorem is_whale_trade_spec (price size : ℚ) :
    (is_whale_trade price size = true ↔
      price * size ≥ MIN_WHALE_TRADE_SIZE) ∧
    is_whale_trade (2/100) 600000 = true ∧
    is_whale_trade (2/100) 100000 = false := by
  refine ⟨?_, by norm_num [is_whale_trade, MIN_WHALE_TRADE_SIZE],
    by norm_num [is_whale_trade, MIN_WHALE_TRADE_SIZE]⟩
  simp [is_whale_trade]

end WhaleTracker

namespace WhaleTracker

/-- C9: `_update_whale_wallet` on a sighting.  If the wallet is unseen, a
new `WhaleWallet` row is appended with `trade_count = 1` and
`first_seen = last_seen = now`.  If it is already present, each matching row
gets `trade_count` incremented by exactly one and `last_seen = now`
(`first_seen` and the address untouched), and `win_rate`, `total_volume`,
`profit_loss` are overwritten from `stats` iff `stats` is non-empty — an
empty stats lookup leaves those three values unchanged; non-matching rows
are unchanged. -/
theorem update_whale_wallet_spec (df : List WhaleWallet) (wallet : String)
    (stats : Option TraderStats) (now : Nat) :
    ((∀ w ∈ df, w.wallet_address ≠ wallet) →
      _update_whale_wallet df wallet stats now =
        df ++ [{ wallet_address := wallet
                 win_rate := (stats.map fun st => st.win_rate).getD 0
                 total_volume := (stats.map fun st => st.total_volume).getD 0
                 profit_loss := (stats.map fun st => st.profit_loss).getD 0
                 first_seen := now
                 last_seen := now
                 trade_count := 1 }]) ∧
    ((∃ w ∈ df, w.wallet_address = wallet) →
      List.Forall₂ (fun w w' =>
        (w.wallet_address = wallet →
          w'.last_seen = now ∧
          w'.trade_count = w.trade_count + 1 ∧
          w'.first_seen = w.first_seen ∧
          w'.wallet_address = w.wallet_address ∧
          (stats = none →
            w'.win_rate = w.win_rate ∧
            w'.total_volume = w.total_volume ∧
            w'.profit_loss = w.profit_loss) ∧
          (∀ st, stats = some st →
            w'.win_rate = st.win_rate ∧
            w'.total_volume = st.total_volume ∧
            w'.profit_loss = st.profit_loss)) ∧
        (w.wallet_address ≠ wallet → w' = w))
        df (_update_whale_wallet df wallet stats now)) := by
  constructor
  · intro h
    unfold _update_whale_wallet
    rw [if_neg]
    intro hc
    obtain ⟨w, hw, hbeq⟩ := List.any_eq_true.mp hc
    exact h w hw (by simpa using hbeq)
  · intro h
    obtain ⟨w0, hw0, haddr⟩ := h
    unfold _update_whale_wallet
    rw [if_pos (List.any_eq_true.mpr ⟨w0, hw0, by simpa using haddr⟩)]
    rw [List.forall₂_map_right_iff]
    rw [List.forall₂_same]
    intro w _
    constructor
    · intro hmatch
      rw [if_pos (by simpa using hmatch)]
      cases stats with
      | none => simp
      | some st => simp
    · intro hmatch
      rw [if_neg (by simpa using hmatch)]

/-- C9 witness: one seen-wallet sighting with non-empty stats, and one
unseen-wallet sighting. -/
theorem update_whale_wallet_spec_witness :
    (_update_whale_wallet
        [{ wallet_address := "0xabc", win_rate := 50, total_volume := 1000,
           profit_loss := 10, first_seen := 5, last_seen := 6,
           trade_count := 3 }] "0xnew" none 9 =
      [{ wallet_address := "0xabc", win_rate := 50, total_volume := 1000,
         profit_loss := 10, first_seen := 5, last_seen := 6,
         trade_count := 3 }] ++
        [{ wallet_address := "0xnew",
           win_rate := ((none : Option TraderStats).map fun st => st.win_rate).getD 0
           total_volume := ((none : Option TraderStats).map fun st => st.total_volume).getD 0
           profit_loss := ((none : Option TraderStats).map fun st => st.profit_loss).getD 0
           first_seen := 9, last_seen := 9, trade_count := 1 }]) ∧
    List.Forall₂ (fun w w' =>
        (w.wallet_address = "0xabc" →
          w'.last_seen = 9 ∧
          w'.trade_count = w.trade_count + 1 ∧
          w'.first_seen = w.first_seen ∧
          w'.wallet_address = w.wallet_address ∧
          ((some { win_rate := 70, total_volume := 2000, profit_loss := 42 } :
              Option TraderStats) = none →
            w'.win_rate = w.win_rate ∧
            w'.total_volume = w.total_volume ∧
            w'.profit_loss = w.profit_loss) ∧
          (∀ st, (some { win_rate := 70, total_volume := 2000, profit_loss := 42 } :
              Option TraderStats) = some st →
            w'.win_rate = st.win_rate ∧
            w'.total_volume = st.total_volume ∧
            w'.profit_loss = st.profit_loss)) ∧
        (w.wallet_address ≠ "0xabc" → w' = w))
      [{ wallet_address := "0xabc", win_rate := 50, total_volume := 1000,
         profit_loss := 10, first_seen := 5, last_seen := 6,
         trade_count := 3 }]
      (_update_whale_wallet
        [{ wallet_address := "0xabc", win_rate := 50, total_volume := 1000,
           profit_loss := 10, first_seen := 5, last_seen := 6,
           trade_count := 3 }] "0xabc"
        (some { win_rate := 70, total_volume := 2000, profit_loss := 42 }) 9) := by
  constructor
  · exact (update_whale_wallet_spec
      [{ wallet_address := "0xabc", win_rate := 50, total_volume := 1000,
         profit_loss := 10, first_seen := 5, last_seen := 6,
         trade_count := 3 }] "0xnew" none 9).1 (by simp)
  · exact (update_whale_wallet_spec
      [{ wallet_address := "0xabc", win_rate := 50, total_volume := 1000,
         profit_loss := 10, first_seen := 5, last_seen := 6,
         trade_count := 3 }] "0xabc"
      (some { win_rate := 70, total_volume := 2000, profit_loss := 42 }) 9).2
      ⟨_, List.mem_singleton.mpr rfl, rfl⟩

end WhaleTracker

namespace PaperTrading

/-- C1 (amended): a BUY `place_order` fails, with no trade recorded, iff
`price * size` exceeds the pre-call balance; on success the OPEN trade and
the corresponding position are appended atomically, but the post-call
balance equals the pre-call balance (`starting_balance + realized pnl`) —
the mid-call debit of `price * size` is overwritten by the final
`_recalculate_balance`, so the balance is NOT decreased by `price * size`.
The `balOk` hypothesis holds in every state at rest between calls. -/
theorem place_order_buy_spec (s : EngineState) (slug title tok : String)
    (price size : ℚ) (tid : String) (hBal : balOk s) :
    (s.balance < price * size →
      place_order s slug title tok "BUY" price size tid = (none, s)) ∧
    (¬ s.balance < price * size →
      (place_order s slug title tok "BUY" price size tid).1 = some tid ∧
      (place_order s slug title tok "BUY" price size tid).2.trades =
        s.trades ++ [openTrade slug title tok "BUY" price size] ∧
      (place_order s slug title tok "BUY" price size tid).2.positions =
        s.positions ++
          [entryPosition slug title tok "BUY" price size (price * size)] ∧
      (place_order s slug title tok "BUY" price size tid).2.balance =
        s.balance) := by
  constructor
  · intro hlt
    exact place_order_fail_eq s slug title tok price size tid hlt
  · intro hlt
    rw [place_order_buy_eq s slug title tok price size tid hlt]
    refine ⟨rfl, ?_, ?_, ?_⟩
    · rw [_recalculate_balance_trades]
    · rw [_recalculate_balance_positions]
    · rw [_recalculate_balance_balance]
      simp only [realizedPnl_append, realizedPnl_openTrade, add_zero]
      exact hBal.symm

/-- C1 witness: on a fresh engine with balance 10000, the success branch of
the amended claim at price 1/2, size 100. -/
theorem place_order_buy_spec_witness :
    ¬ (initEngine 10000).balance < (1/2 : ℚ) * 100 ∧
    (place_order (initEngine 10000) "m" "M" "t" "BUY" (1/2) 100 "T1").1 =
      some "T1" ∧
    (place_order (initEngine 10000) "m" "M" "t" "BUY" (1/2) 100 "T1").2.balance =
      (initEngine 10000).balance := by
  have h := (place_order_buy_spec (initEngine 10000) "m" "M" "t" (1/2) 100 "T1"
    (by norm_num [balOk, initEngine, realizedPnl])).2
    (by norm_num [initEngine])
  exact ⟨by norm_num [initEngine], h.1, h.2.2.2⟩

/-- C1 counterexample: on a fresh engine with balance 10000, a BUY of 100
shares at price 1/2 (50 USD) succeeds, yet the post-call balance is 10000,
not 10000 − 50 as the claim demands. -/
theorem place_order_buy_debit_counterexample :
    (place_order (initEngine 10000) "m" "M" "t" "BUY" (1/2) 100 "T1").1 =
      some "T1" ∧
    (place_order (initEngine 10000) "m" "M" "t" "BUY" (1/2) 100 "T1").2.balance =
      10000 ∧
    ¬ (place_order (initEngine 10000) "m" "M" "t" "BUY"
        (1/2) 100 "T1").2.balance =
      (initEngine 10000).balance - (1/2 : ℚ) * 100 := by
  refine ⟨?_, ?_, ?_⟩ <;>
    norm_num +decide [place_order, initEngine, _recalculate_balance,
      _add_position, _close_position, openTrade, entryPosition, realizedPnl,
      unrealizedPnl, posMatches, openBuyMatches, List.filter_cons,
      List.filter_nil]

end PaperTrading

namespace PaperTrading

theorem place_order_buy_balance (s : EngineState) (slug title tok : String)
    (price size : ℚ) (tid : String) (hBal : balOk s) :
    (place_order s slug title tok "BUY" price size tid).2.balance = s.balance ∧
    balOk (place_order s slug title tok "BUY" price size tid).2 := by
  by_cases hlt : s.balance < price * size
  · rw [place_order_fail_eq s slug title tok price size tid hlt]
    exact ⟨rfl, hBal⟩
  · rw [place_order_buy_eq s slug title tok price size tid hlt]
    refine ⟨?_, balOk_recalculate _⟩
    rw [_recalculate_balance_balance]
    simp only [realizedPnl_append, realizedPnl_openTrade, add_zero]
    exact hBal.symm

/-- C2 (amended): a BUY never drives the balance negative — over any
sequence of BUY `place_order` calls from a consistent state with
non-negative balance, the balance stays non-negative (each successful BUY in
fact leaves the balance unchanged, and an unaffordable BUY fails).  The
original claim is false for sequences containing SELLs: SELL orders carry no
balance check, and a successful SELL can leave the balance negative (see the
counterexample). -/
theorem buy_only_balance_nonneg (s : EngineState) (os : List OrderReq)
    (hBal : balOk s) (h0 : 0 ≤ s.balance)
    (hBuy : ∀ o ∈ os, o.side = "BUY") :
    0 ≤ (runOrders s os).balance := by
  revert hBal h0 hBuy
  induction os generalizing s with
  | nil =>
    intro _ h0 _
    simpa [runOrders] using h0
  | cons o os ih =>
    intro hBal h0 hBuy
    have hside := hBuy o (List.mem_cons_self o os)
    have hrun : runOrders s (o :: os) =
        runOrders (place_order s o.market_slug o.market_title o.token_id
          o.side o.price o.size o.trade_id).2 os := by
      rw [runOrders, runOrders, List.foldl_cons]
    rw [hrun, hside]
    have hstep := place_order_buy_balance s o.market_slug o.market_title
      o.token_id o.price o.size o.trade_id hBal
    exact ih _ hstep.2 (h0.trans_eq hstep.1.symm)
      fun o' ho' => hBuy o' (List.mem_cons_of_mem o ho')

/-- C2 witness: a single affordable BUY from a fresh engine with balance 5. -/
theorem buy_only_balance_nonneg_witness :
    0 ≤ (runOrders (initEngine 5)
      [{ market_slug := "A", market_title := "A", token_id := "tA",
         side := "BUY", price := 1/2, size := 4, trade_id := "T1" }]).balance :=
  buy_only_balance_nonneg (initEngine 5)
    [{ market_slug := "A", market_title := "A", token_id := "tA",
       side := "BUY", price := 1/2, size := 4, trade_id := "T1" }]
    (by norm_num [balOk, initEngine, realizedPnl])
    (by norm_num [initEngine])
    (by simp)

/-- C2 counterexample: starting balance 10, BUY 10 USD in each of two
markets (open positions do not debit the persistent balance), then SELL both
at price 0.  Every call succeeds, and the final balance is −10 < 0, so the
claimed invariant fails: the call that would make the balance negative
succeeds instead of failing. -/
theorem sell_drives_balance_negative :
    (place_order (initEngine 10) "A" "A" "tA" "BUY" (1/2) 20 "T1").1 =
      some "T1" ∧
    (place_order (place_order (initEngine 10)
        "A" "A" "tA" "BUY" (1/2) 20 "T1").2
        "B" "B" "tB" "BUY" (1/2) 20 "T2").1 = some "T2" ∧
    (place_order (place_order (place_order (initEngine 10)
        "A" "A" "tA" "BUY" (1/2) 20 "T1").2
        "B" "B" "tB" "BUY" (1/2) 20 "T2").2
        "A" "A" "tA" "SELL" 0 20 "T3").1 = some "T3" ∧
    (place_order (place_order (place_order (place_order (initEngine 10)
        "A" "A" "tA" "BUY" (1/2) 20 "T1").2
        "B" "B" "tB" "BUY" (1/2) 20 "T2").2
        "A" "A" "tA" "SELL" 0 20 "T3").2
        "B" "B" "tB" "SELL" 0 20 "T4").1 = some "T4" ∧
    (place_order (place_order (place_order (place_order (initEngine 10)
        "A" "A" "tA" "BUY" (1/2) 20 "T1").2
        "B" "B" "tB" "BUY" (1/2) 20 "T2").2
        "A" "A" "tA" "SELL" 0 20 "T3").2
        "B" "B" "tB" "SELL" 0 20 "T4").2.balance < 0 := by
  refine ⟨?_, ?_, ?_, ?_, ?_⟩ <;>
    norm_num +decide [place_order, initEngine, _recalculate_balance,
      _add_position, _close_position, openTrade, entryPosition, realizedPnl,
      unrealizedPnl, posMatches, openBuyMatches, List.filter_cons,
      List.filter_nil]

end PaperTrading

namespace PaperTrading

/-- C4 (amended): a SELL `place_order` on a pair with no open Position
leaves the balance and the positions unchanged, but it does NOT fail: it
appends an OPEN SELL `TradeRecord` (which `_close_position` then silently
ignores) and returns the trade id.  The `balOk` hypothesis holds in every
state at rest between calls. -/
theorem place_order_sell_no_position_spec (s : EngineState)
    (slug title tok : String) (price size : ℚ) (tid : String)
    (hBal : balOk s)
    (hPos : ∀ p ∈ s.positions, posMatches slug tok p = false) :
    (place_order s slug title tok "SELL" price size tid).1 = some tid ∧
    (place_order s slug title tok "SELL" price size tid).2.positions =
      s.positions ∧
    (place_order s slug title tok "SELL" price size tid).2.balance =
      s.balance ∧
    (place_order s slug title tok "SELL" price size tid).2.trades =
      s.trades ++ [openTrade slug title tok "SELL" price size] := by
  rw [place_order_sell_eq s slug title tok "SELL" price size tid (by decide)]
  rw [_close_position_no_match
    { s with trades := s.trades ++ [openTrade slug title tok "SELL" price size] }
    slug tok price size hPos]
  refine ⟨rfl, ?_, ?_, ?_⟩
  · rw [_recalculate_balance_positions]
  · rw [_recalculate_balance_balance]
    simp only [realizedPnl_append, realizedPnl_openTrade, add_zero]
    exact hBal.symm
  · rw [_recalculate_balance_trades]

/-- C4 witness: a SELL on a fresh engine (no positions at all). -/
theorem place_order_sell_no_position_spec_witness :
    (place_order (initEngine 10000) "m" "M" "t" "SELL" (1/2) 10 "T1").1 =
      some "T1" ∧
    (place_order (initEngine 10000) "m" "M" "t" "SELL" (1/2) 10 "T1").2.balance =
      (initEngine 10000).balance ∧
    (place_order (initEngine 10000) "m" "M" "t" "SELL" (1/2) 10 "T1").2.trades =
      (initEngine 10000).trades ++ [openTrade "m" "M" "t" "SELL" (1/2) 10] := by
  have h := place_order_sell_no_position_spec (initEngine 10000) "m" "M" "t"
    (1/2) 10 "T1" (by norm_num [balOk, initEngine, realizedPnl]) (by simp [initEngine])
  exact ⟨h.1, h.2.2.1, h.2.2.2⟩

/-- C4 counterexample: a SELL with no open Position does not return a
not-found failure — it returns the trade id — and it appends a TradeRecord
(the trades collection grows from empty to length 1). -/
theorem sell_no_position_appends_trade :
    (place_order (initEngine 10000) "m" "M" "t" "SELL" (1/2) 10 "T1").1 =
      some "T1" ∧
    (place_order (initEngine 10000) "m" "M" "t" "SELL"
      (1/2) 10 "T1").2.trades.length = 1 := by
  constructor <;>
    norm_num +decide [place_order, initEngine, _recalculate_balance,
      _add_position, _close_position, openTrade, entryPosition, realizedPnl,
      unrealizedPnl, posMatches, openBuyMatches, List.filter_cons,
      List.filter_nil]

end PaperTrading

namespace PaperTrading

/-- C6 (amended): `_add_position` never merges rows, so the claimed
invariant of at most one open Position per (market_slug, token_id) pair does
not hold: every successful BUY appends a fresh Position row, and after two
successful BUYs into the same pair with no intervening SELL the pair has
exactly two more Position rows than before (in particular two, not one, when
starting from none). -/
theorem two_buys_append_two_positions (s : EngineState)
    (slug title tok : String) (p1 q1 p2 q2 : ℚ) (t1 t2 : String)
    (hBal : balOk s)
    (h1 : ¬ s.balance < p1 * q1) (h2 : ¬ s.balance < p2 * q2) :
    (place_order s slug title tok "BUY" p1 q1 t1).1 = some t1 ∧
    (place_order (place_order s slug title tok "BUY" p1 q1 t1).2
        slug title tok "BUY" p2 q2 t2).1 = some t2 ∧
    ((place_order (place_order s slug title tok "BUY" p1 q1 t1).2
        slug title tok "BUY" p2 q2 t2).2.positions.filter
      (posMatches slug tok)).length =
      (s.positions.filter (posMatches slug tok)).length + 2 := by
  have hstep := place_order_buy_balance s slug title tok p1 q1 t1 hBal
  have h2' : ¬ (place_order s slug title tok "BUY" p1 q1 t1).2.balance <
      p2 * q2 := by
    rw [hstep.1]
    exact h2
  refine ⟨?_, ?_, ?_⟩
  · rw [place_order_buy_eq s slug title tok p1 q1 t1 h1]
  · rw [place_order_buy_eq _ slug title tok p2 q2 t2 h2']
  · rw [place_order_buy_eq _ slug title tok p2 q2 t2 h2']
    simp [place_order_buy_eq s slug title tok p1 q1 t1 h1,
      _recalculate_balance_positions, List.filter_append, List.filter_cons,
      posMatches_entryPosition]

/-- C6 witness: two affordable BUYs into the same pair on a fresh engine. -/
theorem two_buys_append_two_positions_witness :
    (place_order (initEngine 10000) "A" "A" "tA" "BUY" (1/2) 100 "T1").1 =
      some "T1" ∧
    (place_order (place_order (initEngine 10000) "A" "A" "tA" "BUY"
        (1/2) 100 "T1").2 "A" "A" "tA" "BUY" (1/2) 100 "T2").1 = some "T2" ∧
    ((place_order (place_order (initEngine 10000) "A" "A" "tA" "BUY"
        (1/2) 100 "T1").2 "A" "A" "tA" "BUY" (1/2) 100 "T2").2.positions.filter
      (posMatches "A" "tA")).length =
      ((initEngine 10000).positions.filter (posMatches "A" "tA")).length + 2 :=
  two_buys_append_two_positions (initEngine 10000) "A" "A" "tA"
    (1/2) 100 (1/2) 100 "T1" "T2"
    (by norm_num [balOk, initEngine, realizedPnl])
    (by norm_num [initEngine]) (by norm_num [initEngine])

/-- C6 counterexample: after two successful BUYs into the same
(market, token) pair with no intervening SELL, the engine holds TWO open
Position rows for the pair, not exactly one. -/
theorem two_buys_two_position_rows :
    (place_order (initEngine 10000) "A" "A" "tA" "BUY" (1/2) 100 "T1").1 =
      some "T1" ∧
    (place_order (place_order (initEngine 10000) "A" "A" "tA" "BUY"
        (1/2) 100 "T1").2 "A" "A" "tA" "BUY" (1/2) 100 "T2").1 = some "T2" ∧
    ((place_order (place_order (initEngine 10000) "A" "A" "tA" "BUY"
        (1/2) 100 "T1").2 "A" "A" "tA" "BUY" (1/2) 100 "T2").2.positions.filter
      (posMatches "A" "tA")).length = 2 := by
  refine ⟨?_, ?_, ?_⟩ <;>
    norm_num +decide [place_order, initEngine, _recalculate_balance,
      _add_position, _close_position, openTrade, entryPosition, realizedPnl,
      unrealizedPnl, posMatches, openBuyMatches, List.filter_cons,
      List.filter_nil]

end PaperTrading

namespace PaperTrading

theorem filter_not_posMatches_eq_self {slug tok : String} {l : List Position}
    (h : ∀ p ∈ l, posMatches slug tok p = false) :
    (l.filter fun p => !(posMatches slug tok p)) = l := by
  induction l with
  | nil => rfl
  | cons a l ih =>
    rw [List.filter_cons, if_pos (by rw [h a (List.mem_cons_self a l)]; rfl),
      ih fun p hp => h p (List.mem_cons_of_mem a hp)]

theorem _close_position_first_match (s : EngineState) (slug tok : String)
    (price size : ℚ) (position : Position) (rest : List Position)
    (hf : s.positions.filter (posMatches slug tok) = position :: rest) :
    _close_position s slug tok price size =
      { s with balance := s.balance + price * size
               trades := s.trades.map fun t =>
                 if openBuyMatches slug tok t
                 then { t with status := "CLOSED",
                               pnl := price * size - position.entry_value }
                 else t
               positions := s.positions.filter fun p =>
                 !(posMatches slug tok p) } := by
  unfold _close_position
  rw [hf]

theorem realizedPnl_closed_single (t : TradeRecord) (h : t.status = "CLOSED") :
    realizedPnl [t] = t.pnl := by
  simp [realizedPnl, List.filter_cons, h]

theorem openTrade_side (slug title tok side : String) (price size : ℚ) :
    (openTrade slug title tok side price size).side = side := rfl

/-- A SELL `place_order` on a state whose positions for the pair are exactly
one trailing row `pos` and whose OPEN BUY trades for the pair are exactly
one trailing row `bt`: the pair's position is removed, `bt` is closed with
`pnl = price' * size - pos.entry_value`, the SELL is recorded OPEN, and the
balance is recalculated from the closed pnl. -/
theorem place_order_sell_close (u : EngineState) (slug title' tok : String)
    (price' size : ℚ) (tid' : String)
    (P0 : List Position) (pos : Position) (T0 : List TradeRecord)
    (bt : TradeRecord)
    (hup : u.positions = P0 ++ [pos])
    (hP0 : ∀ p ∈ P0, posMatches slug tok p = false)
    (hpos : posMatches slug tok pos = true)
    (hut : u.trades = T0 ++ [bt])
    (hT0 : ∀ t ∈ T0, openBuyMatches slug tok t = false)
    (hbt : openBuyMatches slug tok bt = true) :
    (place_order u slug title' tok "SELL" price' size tid').1 = some tid' ∧
    (place_order u slug title' tok "SELL" price' size tid').2.positions =
      P0 ∧
    (place_order u slug title' tok "SELL" price' size tid').2.trades =
      T0 ++ [{ bt with status := "CLOSED",
                       pnl := price' * size - pos.entry_value },
             openTrade slug title' tok "SELL" price' size] ∧
    (place_order u slug title' tok "SELL" price' size tid').2.balance =
      u.starting_balance + realizedPnl T0 +
        (price' * size - pos.entry_value) := by
  have hfil : ({ u with trades :=
        u.trades ++ [openTrade slug title' tok "SELL" price' size] } :
      EngineState).positions.filter (posMatches slug tok) = [pos] := by
    show u.positions.filter (posMatches slug tok) = [pos]
    rw [hup, List.filter_append, filter_posMatches_eq_nil hP0,
      List.filter_cons, if_pos hpos]
    rfl
  have hclose := _close_position_first_match
    { u with trades := u.trades ++ [openTrade slug title' tok "SELL" price' size] }
    slug tok price' size pos [] hfil
  have htr : (_close_position
      { u with trades :=
          u.trades ++ [openTrade slug title' tok "SELL" price' size] }
      slug tok price' size).trades =
      T0 ++ [{ bt with status := "CLOSED",
                       pnl := price' * size - pos.entry_value },
             openTrade slug title' tok "SELL" price' size] := by
    rw [hclose]
    show ((u.trades ++ [openTrade slug title' tok "SELL" price' size]).map
      fun t => if openBuyMatches slug tok t
        then { t with status := "CLOSED",
                      pnl := price' * size - pos.entry_value } else t) = _
    rw [hut, List.map_append, List.map_append, map_close_eq_self slug tok _ _ hT0,
      List.map_cons, List.map_nil, if_pos hbt, List.map_cons, List.map_nil,
      if_neg (by
        rw [openBuyMatches_of_side_ne slug tok _ (by rw [openTrade_side]; decide)]
        exact Bool.false_ne_true),
      List.append_assoc]
    rfl
  have hps : (_close_position
      { u with trades :=
          u.trades ++ [openTrade slug title' tok "SELL" price' size] }
      slug tok price' size).positions = P0 := by
    rw [hclose]
    show (u.positions.filter fun p => !(posMatches slug tok p)) = P0
    rw [hup, List.filter_append, filter_not_posMatches_eq_self hP0,
      List.filter_cons]
    rw [if_neg (by rw [hpos]; exact Bool.false_ne_true)]
    simp
  have hst : (_close_position
      { u with trades :=
          u.trades ++ [openTrade slug title' tok "SELL" price' size] }
      slug tok price' size).starting_balance = u.starting_balance := by
    rw [_close_position_starting]
  rw [place_order_sell_eq u slug title' tok "SELL" price' size tid' (by decide)]
  refine ⟨rfl, ?_, ?_, ?_⟩
  · simp only [_recalculate_balance_positions]
    exact hps
  · simp only [_recalculate_balance_trades]
    exact htr
  · simp only [_recalculate_balance_balance]
    rw [hst, htr, realizedPnl_append]
    have h2 : realizedPnl
        [{ bt with status := "CLOSED", pnl := price' * size - pos.entry_value },
         openTrade slug title' tok "SELL" price' size] =
        price' * size - pos.entry_value := by
      simp [realizedPnl, List.filter_cons, openTrade]
    rw [h2]
    ring

end PaperTrading

namespace PaperTrading

/-- C3: from any consistent state (`balOk` holds at rest) with no open
Position for the (market, token) pair, no OPEN BUY trade for the pair (the
spec's invariant ties the two together in reachable states), and balance at
least `price * size`, a BUY of `size` shares at `price` followed by a SELL
of `size` shares at `price'` on the same pair removes the position, closes
the BUY trade with `pnl = (price' - price) * size`, and leaves the balance
at `initial - price * size + price' * size`. -/
theorem buy_sell_round_trip (s : EngineState)
    (slug title title' tok : String) (price price' size : ℚ)
    (tid tid' : String)
    (hBal : balOk s)
    (hPos : ∀ p ∈ s.positions, posMatches slug tok p = false)
    (hTr : ∀ t ∈ s.trades, openBuyMatches slug tok t = false)
    (hAfford : ¬ s.balance < price * size) :
    (place_order s slug title tok "BUY" price size tid).1 = some tid ∧
    (place_order (place_order s slug title tok "BUY" price size tid).2
        slug title' tok "SELL" price' size tid').1 = some tid' ∧
    (place_order (place_order s slug title tok "BUY" price size tid).2
        slug title' tok "SELL" price' size tid').2.positions = s.positions ∧
    (place_order (place_order s slug title tok "BUY" price size tid).2
        slug title' tok "SELL" price' size tid').2.trades =
      s.trades ++
        [{ openTrade slug title tok "BUY" price size with
            status := "CLOSED", pnl := (price' - price) * size },
         openTrade slug title' tok "SELL" price' size] ∧
    (place_order (place_order s slug title tok "BUY" price size tid).2
        slug title' tok "SELL" price' size tid').2.balance =
      s.balance - price * size + price' * size := by
  have hbuy := place_order_buy_eq s slug title tok price size tid hAfford
  have hT1 : (place_order s slug title tok "BUY" price size tid).2.trades =
      s.trades ++ [openTrade slug title tok "BUY" price size] := by
    simp only [hbuy, _recalculate_balance_trades]
  have hP1 : (place_order s slug title tok "BUY" price size tid).2.positions =
      s.positions ++
        [entryPosition slug title tok "BUY" price size (price * size)] := by
    simp only [hbuy, _recalculate_balance_positions]
  have hS1 : (place_order s slug title tok "BUY"
      price size tid).2.starting_balance = s.starting_balance := by
    simp only [hbuy, _recalculate_balance_starting]
  have hsell := place_order_sell_close
    (place_order s slug title tok "BUY" price size tid).2 slug title' tok
    price' size tid' s.positions
    (entryPosition slug title tok "BUY" price size (price * size))
    s.trades (openTrade slug title tok "BUY" price size)
    hP1 hPos
    (posMatches_entryPosition slug title tok "BUY" price size (price * size))
    hT1 hTr (openBuyMatches_openTrade slug title tok price size)
  refine ⟨by rw [hbuy], hsell.1, hsell.2.1, ?_, ?_⟩
  · rw [hsell.2.2.1]
    simp [entryPosition, openTrade, sub_mul]
  · rw [hsell.2.2.2, hS1]
    have hreal : realizedPnl s.trades = s.balance - s.starting_balance := by
      rw [hBal]
      ring
    rw [hreal]
    have hentry : (entryPosition slug title tok "BUY" price size
        (price * size)).entry_value = price * size := rfl
    rw [hentry]
    ring

/-- C3 witness: the round trip on a fresh engine with balance 10000, buying
100 shares at 1/2 and selling them at 3/4. -/
theorem buy_sell_round_trip_witness :
    (place_order (initEngine 10000) "m" "M" "t" "BUY" (1/2) 100 "T1").1 =
      some "T1" ∧
    (place_order (place_order (initEngine 10000) "m" "M" "t" "BUY"
        (1/2) 100 "T1").2 "m" "M2" "t" "SELL" (3/4) 100 "T2").1 = some "T2" ∧
    (place_order (place_order (initEngine 10000) "m" "M" "t" "BUY"
        (1/2) 100 "T1").2 "m" "M2" "t" "SELL" (3/4) 100 "T2").2.positions =
      (initEngine 10000).positions ∧
    (place_order (place_order (initEngine 10000) "m" "M" "t" "BUY"
        (1/2) 100 "T1").2 "m" "M2" "t" "SELL" (3/4) 100 "T2").2.trades =
      (initEngine 10000).trades ++
        [{ openTrade "m" "M" "t" "BUY" (1/2) 100 with
            status := "CLOSED", pnl := ((3/4 : ℚ) - 1/2) * 100 },
         openTrade "m" "M2" "t" "SELL" (3/4) 100] ∧
    (place_order (place_order (initEngine 10000) "m" "M" "t" "BUY"
        (1/2) 100 "T1").2 "m" "M2" "t" "SELL" (3/4) 100 "T2").2.balance =
      (initEngine 10000).balance - (1/2 : ℚ) * 100 + (3/4 : ℚ) * 100 :=
  buy_sell_round_trip (initEngine 10000) "m" "M" "M2" "t" (1/2) (3/4) 100
    "T1" "T2" (by norm_num [balOk, initEngine, realizedPnl])
    (by simp [initEngine]) (by simp [initEngine]) (by norm_num [initEngine])

end PaperTrading

namespace WhaleTracker

/-- C7 (code-defect evidence): with the default configuration and
`whale_size_usd = 50000`, `_evaluate_copy_trade` computes
`copy_size_usd = min(5000, 100) = 100` and passes it to
`place_market_order` as the `size` argument.  The paper execution path does
NOT convert this USD amount into shares: it records an order of 100 SHARES
at the simulated price 0.50, whose USD value is 50, not the intended 100 —
contradicting the call site's own comment that the value "will be converted
to shares in the function". -/
theorem copy_trade_usd_value_mismatch :
    copy_size_usd 50000 = 100 ∧
    (place_market_order (PaperTrading.initEngine 10000) "tok"
        (copy_size_usd 50000) "BUY" "m" "M" "T1").1 = some "T1" ∧
    (place_market_order (PaperTrading.initEngine 10000) "tok"
        (copy_size_usd 50000) "BUY" "m" "M" "T1").2.trades =
      [PaperTrading.openTrade "m" "M" "tok" "BUY" simulated_price 100] ∧
    (PaperTrading.openTrade "m" "M" "tok" "BUY"
        simulated_price 100).usd_value = 50 ∧
    ¬ (PaperTrading.openTrade "m" "M" "tok" "BUY"
        simulated_price 100).usd_value = copy_size_usd 50000 := by
  refine ⟨?_, ?_, ?_, ?_, ?_⟩ <;>
    norm_num +decide [copy_size_usd, COPY_PERCENTAGE, MAX_POSITION_SIZE,
      simulated_price, place_market_order, PaperTrading.place_order,
      PaperTrading.initEngine, PaperTrading._recalculate_balance,
      PaperTrading._add_position, PaperTrading._close_position,
      PaperTrading.openTrade, PaperTrading.entryPosition,
      PaperTrading.realizedPnl, PaperTrading.unrealizedPnl,
      PaperTrading.posMatches, PaperTrading.openBuyMatches,
      List.filter_cons, List.filter_nil]

end WhaleTracker
